import Mathlib

/-!
Verification of the wolf-engine Vulkan renderer lifecycle layer
(`src/core/renderer/backend/vulkan/vulkan.rs`, `src/error.rs`).

The shallow embedding models the renderer's CPU-side state
(`VulkanRenderer`'s fields), its teardown sequencer (`cleanup`), its
swapchain-parameter selection logic (`create_swapchain`), its
physical-device / queue-family selection, and the failure structure of
`Renderer::initialize`.  GPU handles are opaque `Nat` tokens; driver calls
are represented by oracles giving each call's result.  The debug build is
modelled (`debug_assertions` on, non-macOS target), which is the build in
which all claimed steps (debug messenger, validation layer) exist.
-/

namespace WolfEngine

/-- Vulkan `vk::Format`; only `B8G8R8A8_SRGB` is distinguished by the code
(the predicate at vulkan.rs:155), all other formats are opaque. -/
inductive VkFormat
  | B8G8R8A8_SRGB
  | other (n : Nat)
deriving DecidableEq, Repr

/-- Vulkan `vk::ColorSpaceKHR`; only `SRGB_NONLINEAR` is named by the spec;
the code never inspects the color space. -/
inductive VkColorSpace
  | SRGB_NONLINEAR
  | other (n : Nat)
deriving DecidableEq, Repr

/-- Vulkan `vk::PresentModeKHR`; the code distinguishes `MAILBOX` and
`FIFO` (vulkan.rs:175-179). -/
inductive VkPresentMode
  | MAILBOX
  | FIFO
  | other (n : Nat)
deriving DecidableEq, BEq, Repr

/-- Vulkan `vk::Extent2D`. -/
structure Extent2D where
  width : Nat
  height : Nat
deriving DecidableEq, Repr

/-- Vulkan `vk::SurfaceFormatKHR`: a format / color-space pair. -/
structure SurfaceFormatKHR where
  format : VkFormat
  color_space : VkColorSpace
deriving DecidableEq, Repr

/-- The fields of `vk::SurfaceCapabilitiesKHR` the code reads
(plus the min/max extent bounds, which it never reads). -/
structure SurfaceCapabilitiesKHR where
  min_image_count : Nat
  max_image_count : Nat
  current_extent : Extent2D
  min_image_extent : Extent2D
  max_image_extent : Extent2D
deriving DecidableEq, Repr

/-- CPU-side state of `VulkanRenderer` (vulkan.rs:37-60).  GPU handles are
opaque `Nat` tokens; `entry` carries no data.  `inst` is the source's
`instance` field (renamed: `instance` is a Lean keyword). -/
structure RendererState where
  entry : Option Unit
  inst : Option Nat
  debug : Option Nat
  surface : Option Nat
  physical_device : Option Nat
  device : Option Nat
  graphics_queue : Option Nat
  present_queue : Option Nat
  queue_family_indices : Option (Nat × Nat)
  swapchain : Option Nat
  swapchain_images : List Nat
  swapchain_image_views : List Nat
  swapchain_format : Option VkFormat
  swapchain_extent : Option Extent2D
  render_pass : Option Nat
  framebuffers : List Nat
deriving DecidableEq, Repr

/-- Observable driver actions performed during teardown.  `deviceWaitIdle`
records whether the wait succeeded (the code calls `.ok()` on its result);
`log` would be a message routed to the logging collaborator — `cleanup`
contains no logging call, so the constructor exists only so that the
absence of logging is statable. -/
inductive Event
  | deviceWaitIdle (ok : Bool)
  | destroyFramebuffer (h : Nat)
  | destroyRenderPass (h : Nat)
  | destroyImageView (h : Nat)
  | destroySwapchain (h : Nat)
  | destroyDebugMessenger (h : Nat)
  | destroySurface (h : Nat)
  | destroyDevice (h : Nat)
  | destroyInstance (h : Nat)
  | log (m : Nat)
deriving DecidableEq, Repr

/-- True exactly on `Event.log`. -/
def Event.isLog : Event → Bool
  | .log _ => true
  | _ => false

/-- True exactly on `Event.deviceWaitIdle`. -/
def Event.isWaitIdle : Event → Bool
  | .deviceWaitIdle _ => true
  | _ => false

/-- Zero or one destruction event for an optional handle. -/
def optEvent (f : Nat → Event) : Option Nat → List Event
  | none => []
  | some h => [f h]

/-- The device-scoped part of `VulkanRenderer::cleanup`
(vulkan.rs:67-92): only entered when a logical device exists; waits for
the device to go idle (result discarded by `.ok()`), then destroys the
framebuffers, the render pass, the image views, and the swapchain, and
clears exactly those four fields.  When no device exists the block is
skipped entirely and those fields are left untouched, exactly as in the
source. -/
def cleanupDeviceChildren (waitOk : Bool) (s : RendererState) :
    RendererState × List Event :=
  match s.device with
  | none => (s, [])
  | some _ =>
      ({ s with
          framebuffers := []
          render_pass := none
          swapchain_image_views := []
          swapchain := none },
       Event.deviceWaitIdle waitOk ::
         (s.framebuffers.map Event.destroyFramebuffer ++
          (optEvent Event.destroyRenderPass s.render_pass ++
           (s.swapchain_image_views.map Event.destroyImageView ++
            optEvent Event.destroySwapchain s.swapchain))))

/-- `VulkanRenderer::cleanup` (vulkan.rs:65-129), debug build.  `waitOk`
is the driver's result for `device_wait_idle`.  After the device-scoped
block: destroy the debug messenger (guard `(Some(instance), Some(debug))`),
the surface (guard `(Some(instance), Some(surface))`), the logical device,
and the instance, then clear the remaining CPU-side fields
(vulkan.rs:121-128).  Totality of this function is the no-panic model:
every driver failure is absorbed and the sequence runs to completion. -/
def cleanup (waitOk : Bool) (s : RendererState) :
    RendererState × List Event :=
  let p := cleanupDeviceChildren waitOk s
  let s1 := p.1
  let evs1 := p.2
  let evs2 := match s1.inst, s1.debug with
    | some _, some dm => [Event.destroyDebugMessenger dm]
    | _, _ => []
  let s2 := { s1 with debug := none }
  let evs3 := match s2.inst, s2.surface with
    | some _, some sf => [Event.destroySurface sf]
    | _, _ => []
  let s3 := { s2 with surface := none }
  let evs4 := optEvent Event.destroyDevice s3.device
  let s4 := { s3 with device := none }
  let evs5 := match s4.inst with
    | some i => [Event.destroyInstance i]
    | none => []
  let s5 := { s4 with
              inst := none
              entry := none
              physical_device := none
              graphics_queue := none
              present_queue := none
              queue_family_indices := none
              swapchain_images := []
              swapchain_format := none
              swapchain_extent := none }
  (s5, evs1 ++ (evs2 ++ (evs3 ++ (evs4 ++ evs5))))

/-- The teardown order as the specification states it (spec section 4.5 and
claim C1): if a logical device exists, first the idle wait, then all
framebuffers, the render pass, all image views, the swapchain; then the
debug messenger (if created), the surface, the logical device, the
instance — each step skipped silently when its resource is absent. -/
def specTeardownTrace (waitOk : Bool) (s : RendererState) : List Event :=
  (match s.device with
   | some _ =>
       Event.deviceWaitIdle waitOk ::
         (s.framebuffers.map Event.destroyFramebuffer ++
          (optEvent Event.destroyRenderPass s.render_pass ++
           (s.swapchain_image_views.map Event.destroyImageView ++
            optEvent Event.destroySwapchain s.swapchain)))
   | none => []) ++
  (optEvent Event.destroyDebugMessenger s.debug ++
   (optEvent Event.destroySurface s.surface ++
    (optEvent Event.destroyDevice s.device ++
     optEvent Event.destroyInstance s.inst)))

/-- Invariant of every reachable renderer state (default-initialized,
after a successful `initialize`, or after any `cleanup`): device-child
handles exist only while the logical device does, and the debug messenger,
surface and device exist only while the instance does. -/
def stateInv (s : RendererState) : Prop :=
  (s.device = none →
     s.framebuffers = [] ∧ s.render_pass = none ∧
     s.swapchain_image_views = [] ∧ s.swapchain = none) ∧
  (s.inst = none → s.debug = none ∧ s.surface = none ∧ s.device = none)

/-- Every handle field is `None` and every handle list is empty. -/
def isCleared (s : RendererState) : Bool :=
  s.entry.isNone && s.inst.isNone && s.debug.isNone && s.surface.isNone &&
  s.physical_device.isNone && s.device.isNone && s.graphics_queue.isNone &&
  s.present_queue.isNone && s.queue_family_indices.isNone &&
  s.swapchain.isNone && s.swapchain_images.isEmpty &&
  s.swapchain_image_views.isEmpty && s.swapchain_format.isNone &&
  s.swapchain_extent.isNone && s.render_pass.isNone &&
  s.framebuffers.isEmpty

/-- A fully built renderer state (all resources present), as left behind by
a successful `initialize`. -/
def sampleState : RendererState :=
  { entry := some ()
    inst := some 1
    debug := some 2
    surface := some 3
    physical_device := some 4
    device := some 5
    graphics_queue := some 6
    present_queue := some 7
    queue_family_indices := some (0, 0)
    swapchain := some 8
    swapchain_images := [9, 10]
    swapchain_image_views := [11, 12]
    swapchain_format := some VkFormat.B8G8R8A8_SRGB
    swapchain_extent := some { width := 800, height := 600 }
    render_pass := some 13
    framebuffers := [14, 15] }

/-- Surface-format choice of `create_swapchain` (vulkan.rs:153-156):
`surface_formats.iter().find(|f| f.format == vk::Format::B8G8R8A8_SRGB)
.unwrap_or(&surface_formats[0])`.  The predicate tests the `format` field
only — the color space is never inspected.  On an empty list the fallback
indexes element 0 out of bounds and the process panics; `none` models that
panic. -/
def selectSurfaceFormat (surface_formats : List SurfaceFormatKHR) :
    Option SurfaceFormatKHR :=
  match surface_formats with
  | [] => none
  | f0 :: _ =>
      some ((surface_formats.find?
        (fun f => decide (f.format = VkFormat.B8G8R8A8_SRGB))).getD f0)

/-- Extent choice of `create_swapchain` (vulkan.rs:159-165): the sentinel
`std::u32::MAX` in the width field selects the fixed 800x600 default; any
other capability report is returned verbatim (no clamping to
`min_image_extent`/`max_image_extent`). -/
def selectSwapExtent (surface_caps : SurfaceCapabilitiesKHR) : Extent2D :=
  if surface_caps.current_extent.width = 4294967295 then
    { width := 800, height := 600 }
  else
    surface_caps.current_extent

/-- Present-mode choice of `create_swapchain` (vulkan.rs:175-179):
`MAILBOX` when advertised, else `FIFO`. -/
def selectPresentMode (present_modes : List VkPresentMode) : VkPresentMode :=
  if present_modes.contains VkPresentMode.MAILBOX then VkPresentMode.MAILBOX
  else VkPresentMode.FIFO

/-- Image-count choice of `create_swapchain` (vulkan.rs:184-187):
`min_image_count + 1` in u32 arithmetic, clamped down to
`max_image_count` when that is nonzero and exceeded.  In the modelled
debug build the u32 addition panics on overflow, which happens exactly
when the driver reports `min_image_count = 0xFFFFFFFF`; `none` models
that panic (a release build would instead wrap to 0).  The guard is
written as `min_image_count + 1 < 2^32` over `Nat`, which on u32-range
inputs coincides with `min_image_count = 0xFFFFFFFF` being the only
panicking report. -/
def chooseImageCount (surface_caps : SurfaceCapabilitiesKHR) : Option Nat :=
  if surface_caps.min_image_count + 1 < 4294967296 then
    let image_count := surface_caps.min_image_count + 1
    if surface_caps.max_image_count > 0 ∧
        image_count > surface_caps.max_image_count then
      some surface_caps.max_image_count
    else
      some image_count
  else
    none

deriving instance DecidableEq for Except

/-- A queue family of a physical device as `initialize` observes it:
whether `queue_flags` contains `GRAPHICS` (vulkan.rs:442), and the result
of the `get_physical_device_surface_support_khr` driver query for that
family (vulkan.rs:445-449), which the code unwraps — an `error` result
therefore models a panic. -/
structure QueueFamilyInfo where
  graphics : Bool
  present_support : Except Nat Bool
deriving DecidableEq, Repr

/-- One enumerated physical device: an opaque handle plus its queue-family
properties. -/
structure PhysicalDeviceInfo where
  handle : Nat
  families : List QueueFamilyInfo
deriving DecidableEq, Repr

/-- The per-device loop of `initialize` (vulkan.rs:439-453): walks the
queue families in order, remembering the last index whose flags contain
`GRAPHICS` and the last index whose present-support query returned true;
an erring support query aborts (the code unwraps it). -/
def scanQueueFamilies : List QueueFamilyInfo → Nat → Option Nat →
    Option Nat → Except Nat (Option Nat × Option Nat)
  | [], _, g, p => .ok (g, p)
  | info :: rest, i, g, p =>
      let g' := if info.graphics then some i else g
      match info.present_support with
      | .error c => .error c
      | .ok sup =>
          scanQueueFamilies rest (i + 1) g' (if sup then some i else p)

/-- Physical-device selection of `initialize` (vulkan.rs:435-460):
`devices.iter().find_map(..)` — the first enumerated device whose family
scan yields both a graphics index and a present index is selected together
with those indices; `ok none` models the `.expect("No suitable GPU
found")` case and `error` a panicking support query. -/
def pickPhysicalDevice : List PhysicalDeviceInfo →
    Except Nat (Option (PhysicalDeviceInfo × Nat × Nat))
  | [] => .ok none
  | dev :: rest =>
      match scanQueueFamilies dev.families 0 none none with
      | .error c => .error c
      | .ok (some g, some p) => .ok (some (dev, g, p))
      | .ok _ => pickPhysicalDevice rest

/-- Some family of the device has the graphics-capability flag. -/
def hasGraphicsFamily (d : PhysicalDeviceInfo) : Bool :=
  d.families.any (fun f => f.graphics)

/-- The present-support query result as a plain Bool (an erring query
counts as no support; the claims that use this assume all queries
succeed). -/
def familySupportsPresent (f : QueueFamilyInfo) : Bool :=
  match f.present_support with
  | .ok b => b
  | .error _ => false

/-- Some family of the device reports present support against the
surface. -/
def hasPresentFamily (d : PhysicalDeviceInfo) : Bool :=
  d.families.any familySupportsPresent

/-- Every present-support query of the device succeeded. -/
abbrev allQueriesOk (d : PhysicalDeviceInfo) : Prop :=
  ∀ f ∈ d.families, ∃ b, f.present_support = Except.ok b

/-- `vk::DeviceQueueCreateInfo` as `initialize` builds it: a family index
and the priority list (`[1.0_f32]`; the value 1.0 is exact, modelled in
`Rat`). -/
structure DeviceQueueCreateInfo where
  queue_family_index : Nat
  queue_priorities : List Rat
deriving DecidableEq, Repr

/-- The `unique_queues` list of `initialize` (vulkan.rs:482-486): push the
graphics family, then the present family only when it differs. -/
def uniqueQueueFamilies (graphics_family present_family : Nat) : List Nat :=
  let base := [graphics_family]
  if graphics_family ≠ present_family then base ++ [present_family]
  else base

/-- The queue-creation request list of `initialize` (vulkan.rs:488-499):
one `DeviceQueueCreateInfo` per unique family, each with the single
priority 1.0. -/
def queueCreateInfos (graphics_family present_family : Nat) :
    List DeviceQueueCreateInfo :=
  (uniqueQueueFamilies graphics_family present_family).map
    (fun family =>
      { queue_family_index := family, queue_priorities := [1] })

/-- The preferred surface format named by the spec: 8-bit BGRA with sRGB
non-linear color space. -/
def preferredSurfaceFormat : SurfaceFormatKHR :=
  { format := VkFormat.B8G8R8A8_SRGB
    color_space := VkColorSpace.SRGB_NONLINEAR }

/-- A driver-reported format list containing the preferred entry in second
position, preceded by an entry with the same format but a different color
space. -/
def c7FormatList : List SurfaceFormatKHR :=
  [{ format := VkFormat.B8G8R8A8_SRGB, color_space := VkColorSpace.other 0 },
   preferredSurfaceFormat]

/-- A surface-capabilities report with `max_image_count` equal to
`min_image_count` (a report Vulkan permits). -/
def c5CapsEqual : SurfaceCapabilitiesKHR :=
  { min_image_count := 2
    max_image_count := 2
    current_extent := { width := 800, height := 600 }
    min_image_extent := { width := 1, height := 1 }
    max_image_extent := { width := 4096, height := 4096 } }

/-- A surface-capabilities report with room between min and max image
counts. -/
def c5CapsRoom : SurfaceCapabilitiesKHR :=
  { min_image_count := 2
    max_image_count := 4
    current_extent := { width := 800, height := 600 }
    min_image_extent := { width := 1, height := 1 }
    max_image_extent := { width := 4096, height := 4096 } }

/-- A surface-capabilities report whose minimum image count is the u32
maximum, on which the debug build's `min_image_count + 1` panics with an
arithmetic overflow. -/
def c5CapsOverflow : SurfaceCapabilitiesKHR :=
  { min_image_count := 4294967295
    max_image_count := 0
    current_extent := { width := 800, height := 600 }
    min_image_extent := { width := 1, height := 1 }
    max_image_extent := { width := 4096, height := 4096 } }

/-- A surface-capabilities report with the sentinel any-extent width. -/
def c6CapsSentinel : SurfaceCapabilitiesKHR :=
  { min_image_count := 2
    max_image_count := 4
    current_extent := { width := 4294967295, height := 300 }
    min_image_extent := { width := 1, height := 1 }
    max_image_extent := { width := 4096, height := 4096 } }

/-- A surface-capabilities report with a fixed current extent lying
outside its own min/max extent bounds, to exhibit the absence of
clamping. -/
def c6CapsFixed : SurfaceCapabilitiesKHR :=
  { min_image_count := 2
    max_image_count := 4
    current_extent := { width := 5000, height := 5000 }
    min_image_extent := { width := 1, height := 1 }
    max_image_extent := { width := 4096, height := 4096 } }

/-- Device A of the spec's selection example: graphics-capable family but
no present support. -/
def devA : PhysicalDeviceInfo :=
  { handle := 101, families := [{ graphics := true, present_support := Except.ok false }] }

/-- Device B of the spec's selection example: graphics and present. -/
def devB : PhysicalDeviceInfo :=
  { handle := 102, families := [{ graphics := true, present_support := Except.ok true }] }

/-- Device C of the spec's selection example: graphics and present. -/
def devC : PhysicalDeviceInfo :=
  { handle := 103, families := [{ graphics := true, present_support := Except.ok true }] }

/-- `AppError` (error.rs:10-15).  Message payloads of the `Lib`, `Winit`
and `Loader` variants are opaque tokens; `Vk` carries a result code and a
context token (the `&'static str`). -/
inductive AppError
  | Lib (m : Nat)
  | Vk (code : Nat) (context : Nat)
  | Winit (m : Nat)
  | Loader (m : Nat)
deriving DecidableEq, Repr

/-- The distinct panic messages `initialize` can die with, one constructor
per `expect`/`unwrap`/index site: `unwrapErr` stands for the generic
`Result::unwrap` panic (layer enumeration vulkan.rs:344, window/display
handle vulkan.rs:421-422, surface support vulkan.rs:448, surface
capabilities vulkan.rs:142, surface formats vulkan.rs:149, present modes
vulkan.rs:171, swapchain images vulkan.rs:209, image-view creation
vulkan.rs:233); the others carry the literal expect strings, and
`indexOutOfBounds` is the slice-index panic of `&surface_formats[0]`
(vulkan.rs:156) on an empty list. -/
inductive PanicMsg
  | unwrapErr
  | queryVersionFailed
  | vkCreateInstanceFailed
  | debugUtilsMessenger
  | createSurfaceFailed
  | enumeratePhysicalDevicesFailed
  | noSuitableGpu
  | enumerateDeviceExtensionsFailed
  | createLogicalDeviceFailed
  | indexOutOfBounds
  | createSwapchainFailed
  | createRenderPassFailed
  | createFramebufferFailed
deriving DecidableEq, Repr

/-- How one run of `initialize` ends: normal return of `Ok(())`, a typed
`Err(AppError)` returned to the caller, or a process-aborting panic. -/
inductive InitOutcome
  | ok
  | err (e : AppError)
  | panicked (msg : PanicMsg)
deriving DecidableEq, Repr

/-- True exactly on `InitOutcome.err`. -/
def InitOutcome.isErr : InitOutcome → Bool
  | .err _ => true
  | _ => false

/-- The fallible construction steps of `initialize` in their source
order.  `pickPhysicalDevice` covers the per-family surface-support
queries and the suitability search; `imageViews` and `framebuffers` are
the per-image creation loops. -/
inductive Step
  | loadLibrary
  | entryNew
  | layerProperties
  | instanceVersion
  | createInstance
  | createDebugMessenger
  | windowHandle
  | displayHandle
  | createSurface
  | enumeratePhysicalDevices
  | pickPhysicalDevice
  | deviceExtensions
  | createDevice
  | surfaceCapabilities
  | surfaceFormats
  | presentModes
  | createSwapchain
  | swapchainImages
  | imageViews
  | createRenderPass
  | framebuffers
deriving DecidableEq, Repr

/-- The full step order of a successful `initialize`
(vulkan.rs:317-528). -/
def fullStepOrder : List Step :=
  [Step.loadLibrary, Step.entryNew, Step.layerProperties,
   Step.instanceVersion, Step.createInstance, Step.createDebugMessenger,
   Step.windowHandle, Step.displayHandle, Step.createSurface,
   Step.enumeratePhysicalDevices, Step.pickPhysicalDevice,
   Step.deviceExtensions, Step.createDevice, Step.surfaceCapabilities,
   Step.surfaceFormats, Step.presentModes, Step.createSwapchain,
   Step.swapchainImages, Step.imageViews, Step.createRenderPass,
   Step.framebuffers]

/-- Token for the `VK_LAYER_KHRONOS_validation` layer name. -/
def VALIDATION_LAYER_NAME : Nat := 0

/-- Token for the `VK_KHR_portability_subset` extension name. -/
def KHR_PORTABILITY_SUBSET_NAME : Nat := 1

/-- Results of every driver/windowing call `initialize` makes, fixed up
front: this oracle is the environment of one run.  Error payloads are the
failing result codes (opaque). -/
structure InitOracle where
  loadLibrary : Except Nat Unit
  entryNew : Except Nat Unit
  layerProperties : Except Nat (List Nat)
  instanceVersion : Except Nat Nat
  createInstance : Except Nat Nat
  createDebugUtilsMessenger : Except Nat Nat
  windowHandle : Except Nat Unit
  displayHandle : Except Nat Unit
  createSurface : Except Nat Nat
  physicalDevices : Except Nat (List PhysicalDeviceInfo)
  deviceExtensions : Except Nat (List Nat)
  createDevice : Except Nat Nat
  surfaceCapabilities : Except Nat SurfaceCapabilitiesKHR
  surfaceFormats : Except Nat (List SurfaceFormatKHR)
  presentModes : Except Nat (List VkPresentMode)
  createSwapchain : Except Nat Nat
  swapchainImages : Except Nat (List Nat)
  createImageView : Nat → Except Nat Nat
  createRenderPass : Except Nat Nat
  createFramebuffer : Nat → Except Nat Nat

/-- The image-view creation loop of `create_swapchain` (vulkan.rs:216-235):
one `create_image_view` call per swapchain image, in order; the first
erring call aborts (the code unwraps each result). -/
def createImageViewsLoop (o : InitOracle) : List Nat → Except Nat (List Nat)
  | [] => .ok []
  | img :: rest =>
      match o.createImageView img with
      | .error c => .error c
      | .ok v =>
          match createImageViewsLoop o rest with
          | .error c => .error c
          | .ok vs => .ok (v :: vs)

/-- The framebuffer creation loop of `create_framebuffers`
(vulkan.rs:292-307): one `create_framebuffer` call per image view, in
order; the first erring call aborts (the code expects each result). -/
def createFramebuffersLoop (o : InitOracle) : List Nat → Except Nat (List Nat)
  | [] => .ok []
  | v :: rest =>
      match o.createFramebuffer v with
      | .error c => .error c
      | .ok fb =>
          match createFramebuffersLoop o rest with
          | .error c => .error c
          | .ok fbs => .ok (fb :: fbs)

/-- `Renderer::initialize` for `VulkanRenderer` (vulkan.rs:317-529,
debug build, non-macOS), continued into `create_swapchain`,
`create_render_pass` and `create_framebuffers` exactly as the source
calls them (vulkan.rs:525-527).  Named `initRenderer` in this
development.  Each fallible call consults the oracle in source order; the
result records how the run ended and which steps were attempted.  The
first two steps propagate typed errors with `?` (through the
`From` conversions of error.rs:35-39 and error.rs:53-57); every later
failure panics via `expect`/`unwrap`/indexing, mirroring the source. -/
def initRenderer (o : InitOracle) : InitOutcome × List Step :=
  match o.loadLibrary with
  | .error m => (.err (AppError.Lib m), fullStepOrder.take 1)
  | .ok _ =>
  match o.entryNew with
  | .error m => (.err (AppError.Loader m), fullStepOrder.take 2)
  | .ok _ =>
  match o.layerProperties with
  | .error _ => (.panicked PanicMsg.unwrapErr, fullStepOrder.take 3)
  | .ok layers =>
  let _has_validation_layer := layers.contains VALIDATION_LAYER_NAME
  match o.instanceVersion with
  | .error _ => (.panicked PanicMsg.queryVersionFailed, fullStepOrder.take 4)
  | .ok _supported =>
  match o.createInstance with
  | .error _ => (.panicked PanicMsg.vkCreateInstanceFailed, fullStepOrder.take 5)
  | .ok _inst =>
  match o.createDebugUtilsMessenger with
  | .error _ => (.panicked PanicMsg.debugUtilsMessenger, fullStepOrder.take 6)
  | .ok _debug =>
  match o.windowHandle with
  | .error _ => (.panicked PanicMsg.unwrapErr, fullStepOrder.take 7)
  | .ok _ =>
  match o.displayHandle with
  | .error _ => (.panicked PanicMsg.unwrapErr, fullStepOrder.take 8)
  | .ok _ =>
  match o.createSurface with
  | .error _ => (.panicked PanicMsg.createSurfaceFailed, fullStepOrder.take 9)
  | .ok _surface =>
  match o.physicalDevices with
  | .error _ =>
      (.panicked PanicMsg.enumeratePhysicalDevicesFailed, fullStepOrder.take 10)
  | .ok devices =>
  match pickPhysicalDevice devices with
  | .error _ => (.panicked PanicMsg.unwrapErr, fullStepOrder.take 11)
  | .ok none => (.panicked PanicMsg.noSuitableGpu, fullStepOrder.take 11)
  | .ok (some (_physical_device, graphics_family, present_family)) =>
  match o.deviceExtensions with
  | .error _ =>
      (.panicked PanicMsg.enumerateDeviceExtensionsFailed, fullStepOrder.take 12)
  | .ok device_ext_names =>
  let _has_portability_subset :=
    device_ext_names.contains KHR_PORTABILITY_SUBSET_NAME
  let _queue_create_infos := queueCreateInfos graphics_family present_family
  match o.createDevice with
  | .error _ =>
      (.panicked PanicMsg.createLogicalDeviceFailed, fullStepOrder.take 13)
  | .ok _device =>
  match o.surfaceCapabilities with
  | .error _ => (.panicked PanicMsg.unwrapErr, fullStepOrder.take 14)
  | .ok surface_caps =>
  match o.surfaceFormats with
  | .error _ => (.panicked PanicMsg.unwrapErr, fullStepOrder.take 15)
  | .ok surface_formats =>
  match selectSurfaceFormat surface_formats with
  | none => (.panicked PanicMsg.indexOutOfBounds, fullStepOrder.take 15)
  | some _format =>
  let _extent := selectSwapExtent surface_caps
  match o.presentModes with
  | .error _ => (.panicked PanicMsg.unwrapErr, fullStepOrder.take 16)
  | .ok present_modes =>
  let _present_mode := selectPresentMode present_modes
  let _image_count := chooseImageCount surface_caps
  match o.createSwapchain with
  | .error _ => (.panicked PanicMsg.createSwapchainFailed, fullStepOrder.take 17)
  | .ok _swapchain =>
  match o.swapchainImages with
  | .error _ => (.panicked PanicMsg.unwrapErr, fullStepOrder.take 18)
  | .ok images =>
  match createImageViewsLoop o images with
  | .error _ => (.panicked PanicMsg.unwrapErr, fullStepOrder.take 19)
  | .ok image_views =>
  match o.createRenderPass with
  | .error _ => (.panicked PanicMsg.createRenderPassFailed, fullStepOrder.take 20)
  | .ok _render_pass =>
  match createFramebuffersLoop o image_views with
  | .error _ =>
      (.panicked PanicMsg.createFramebufferFailed, fullStepOrder.take 21)
  | .ok _framebuffers =>
  (.ok, fullStepOrder)

/-- Verdict of one step viewed in isolation, used by the first-failure
reference formulation: `none` when the step succeeds under the oracle,
`some out` when it is the point of failure, with `out` the outcome the
source produces there (typed error for the two library-loading steps,
panic for everything else).  Dependent steps recompute their inputs from
the oracle. -/
def stepFailure (o : InitOracle) : Step → Option InitOutcome
  | .loadLibrary =>
      match o.loadLibrary with
      | .error m => some (.err (AppError.Lib m))
      | .ok _ => none
  | .entryNew =>
      match o.entryNew with
      | .error m => some (.err (AppError.Loader m))
      | .ok _ => none
  | .layerProperties =>
      match o.layerProperties with
      | .error _ => some (.panicked PanicMsg.unwrapErr)
      | .ok _ => none
  | .instanceVersion =>
      match o.instanceVersion with
      | .error _ => some (.panicked PanicMsg.queryVersionFailed)
      | .ok _ => none
  | .createInstance =>
      match o.createInstance with
      | .error _ => some (.panicked PanicMsg.vkCreateInstanceFailed)
      | .ok _ => none
  | .createDebugMessenger =>
      match o.createDebugUtilsMessenger with
      | .error _ => some (.panicked PanicMsg.debugUtilsMessenger)
      | .ok _ => none
  | .windowHandle =>
      match o.windowHandle with
      | .error _ => some (.panicked PanicMsg.unwrapErr)
      | .ok _ => none
  | .displayHandle =>
      match o.displayHandle with
      | .error _ => some (.panicked PanicMsg.unwrapErr)
      | .ok _ => none
  | .createSurface =>
      match o.createSurface with
      | .error _ => some (.panicked PanicMsg.createSurfaceFailed)
      | .ok _ => none
  | .enumeratePhysicalDevices =>
      match o.physicalDevices with
      | .error _ => some (.panicked PanicMsg.enumeratePhysicalDevicesFailed)
      | .ok _ => none
  | .pickPhysicalDevice =>
      match o.physicalDevices with
      | .error _ => none
      | .ok devices =>
          match pickPhysicalDevice devices with
          | .error _ => some (.panicked PanicMsg.unwrapErr)
          | .ok none => some (.panicked PanicMsg.noSuitableGpu)
          | .ok (some _) => none
  | .deviceExtensions =>
      match o.deviceExtensions with
      | .error _ => some (.panicked PanicMsg.enumerateDeviceExtensionsFailed)
      | .ok _ => none
  | .createDevice =>
      match o.createDevice with
      | .error _ => some (.panicked PanicMsg.createLogicalDeviceFailed)
      | .ok _ => none
  | .surfaceCapabilities =>
      match o.surfaceCapabilities with
      | .error _ => some (.panicked PanicMsg.unwrapErr)
      | .ok _ => none
  | .surfaceFormats =>
      match o.surfaceFormats with
      | .error _ => some (.panicked PanicMsg.unwrapErr)
      | .ok surface_formats =>
          match selectSurfaceFormat surface_formats with
          | none => some (.panicked PanicMsg.indexOutOfBounds)
          | some _ => none
  | .presentModes =>
      match o.presentModes with
      | .error _ => some (.panicked PanicMsg.unwrapErr)
      | .ok _ => none
  | .createSwapchain =>
      match o.createSwapchain with
      | .error _ => some (.panicked PanicMsg.createSwapchainFailed)
      | .ok _ => none
  | .swapchainImages =>
      match o.swapchainImages with
      | .error _ => some (.panicked PanicMsg.unwrapErr)
      | .ok _ => none
  | .imageViews =>
      match o.swapchainImages with
      | .error _ => none
      | .ok images =>
          match createImageViewsLoop o images with
          | .error _ => some (.panicked PanicMsg.unwrapErr)
          | .ok _ => none
  | .createRenderPass =>
      match o.createRenderPass with
      | .error _ => some (.panicked PanicMsg.createRenderPassFailed)
      | .ok _ => none
  | .framebuffers =>
      match o.swapchainImages with
      | .error _ => none
      | .ok images =>
          match createImageViewsLoop o images with
          | .error _ => none
          | .ok image_views =>
              match createFramebuffersLoop o image_views with
              | .error _ => some (.panicked PanicMsg.createFramebufferFailed)
              | .ok _ => none

/-- First-failure reference semantics (the amended claim C4 in
executable form): walk the steps in order; the first step whose isolated
verdict is a failure ends the run with that outcome, having attempted
exactly the steps up to and including it; if no step fails the run is
`ok` having attempted every step. -/
def firstFailure (o : InitOracle) : List Step → InitOutcome × List Step
  | [] => (.ok, [])
  | s :: rest =>
      match stepFailure o s with
      | some out => (out, [s])
      | none =>
          let r := firstFailure o rest
          (r.1, s :: r.2)

/-- An oracle under which every driver call succeeds. -/
def okOracle : InitOracle :=
  { loadLibrary := .ok ()
    entryNew := .ok ()
    layerProperties := .ok [VALIDATION_LAYER_NAME]
    instanceVersion := .ok 4202496
    createInstance := .ok 1
    createDebugUtilsMessenger := .ok 2
    windowHandle := .ok ()
    displayHandle := .ok ()
    createSurface := .ok 3
    physicalDevices := .ok [devB]
    deviceExtensions := .ok [KHR_PORTABILITY_SUBSET_NAME]
    createDevice := .ok 5
    surfaceCapabilities := .ok c5CapsRoom
    surfaceFormats := .ok [preferredSurfaceFormat]
    presentModes := .ok [VkPresentMode.FIFO]
    createSwapchain := .ok 8
    swapchainImages := .ok [9, 10]
    createImageView := fun i => .ok (i + 2)
    createRenderPass := .ok 13
    createFramebuffer := fun v => .ok (v + 3) }

/-- The all-success oracle except that `vkCreateInstance` fails with a
driver error code. -/
def c4Oracle : InitOracle := { okOracle with createInstance := .error 2 }

end WolfEngine

namespace WolfEngine

lemma cleanup_trace_eq (w : Bool) (s : RendererState) (h : stateInv s) :
    (cleanup w s).2 = specTeardownTrace w s := by
  obtain ⟨h1, h2⟩ := h
  rcases s with ⟨entry, inst, debug, surface, pd, device, gq, pq, qfi, sc,
    imgs, ivs, fmt, ext, rp, fbs⟩
  cases device <;> cases inst <;> cases debug <;> cases surface <;>
    simp_all [cleanup, cleanupDeviceChildren, specTeardownTrace, optEvent]

lemma cleanup_clears (w : Bool) (s : RendererState) (h : stateInv s) :
    isCleared (cleanup w s).1 = true := by
  obtain ⟨h1, h2⟩ := h
  rcases s with ⟨entry, inst, debug, surface, pd, device, gq, pq, qfi, sc,
    imgs, ivs, fmt, ext, rp, fbs⟩
  cases device <;>
    simp_all [cleanup, cleanupDeviceChildren, isCleared]

lemma stateInv_of_cleared (t : RendererState) (h : isCleared t = true) :
    stateInv t := by
  rcases t with ⟨entry, inst, debug, surface, pd, device, gq, pq, qfi, sc,
    imgs, ivs, fmt, ext, rp, fbs⟩
  simp only [isCleared, Bool.and_eq_true, Option.isNone_iff_eq_none,
    List.isEmpty_iff] at h
  simp_all [stateInv]

lemma cleanup_of_cleared (w : Bool) (t : RendererState)
    (h : isCleared t = true) : cleanup w t = (t, []) := by
  rcases t with ⟨entry, inst, debug, surface, pd, device, gq, pq, qfi, sc,
    imgs, ivs, fmt, ext, rp, fbs⟩
  simp only [isCleared, Bool.and_eq_true, Option.isNone_iff_eq_none,
    List.isEmpty_iff] at h
  obtain ⟨⟨⟨⟨⟨⟨⟨⟨⟨⟨⟨⟨⟨⟨⟨he, hi⟩, hd⟩, hs⟩, hpd⟩, hdev⟩, hgq⟩, hpq⟩, hqfi⟩,
    hsc⟩, himg⟩, hiv⟩, hfmt⟩, hext⟩, hrp⟩, hfb⟩ := h
  subst he hi hd hs hpd hdev hgq hpq hqfi hsc himg hiv hfmt hext hrp hfb
  simp [cleanup, cleanupDeviceChildren, optEvent]

lemma cleanup_state_ignores_waitOk (w : Bool) (s : RendererState) :
    (cleanup w s).1 = (cleanup true s).1 := by
  rcases s with ⟨entry, inst, debug, surface, pd, device, gq, pq, qfi, sc,
    imgs, ivs, fmt, ext, rp, fbs⟩
  cases device <;> simp [cleanup, cleanupDeviceChildren]

lemma cleanup_trace_ignores_waitOk (w : Bool) (s : RendererState) :
    ((cleanup w s).2.filter (fun e => !e.isWaitIdle)) =
      ((cleanup true s).2.filter (fun e => !e.isWaitIdle)) := by
  rcases s with ⟨entry, inst, debug, surface, pd, device, gq, pq, qfi, sc,
    imgs, ivs, fmt, ext, rp, fbs⟩
  cases device <;>
    simp [cleanup, cleanupDeviceChildren, Event.isWaitIdle]

lemma cleanup_no_log (w : Bool) (s : RendererState) :
    ((cleanup w s).2.all (fun e => !e.isLog)) = true := by
  rcases s with ⟨entry, inst, debug, surface, pd, device, gq, pq, qfi, sc,
    imgs, ivs, fmt, ext, rp, fbs⟩
  cases device <;> cases inst <;> cases debug <;> cases surface <;>
    cases rp <;> cases sc <;>
    simp_all [cleanup, cleanupDeviceChildren, optEvent, Event.isLog,
      List.all_eq_true]

/-- C1: on every renderer state satisfying the reachable-state invariant,
`cleanup` performs exactly the teardown sequence the spec lists — device
idle wait (only when a logical device exists), then framebuffers, render
pass, image views, swapchain, then debug messenger, surface, logical
device, instance, each skipped silently when absent — and afterwards every
CPU-side handle field (physical device, queues, queue family indices,
cached format and extent included) is cleared. -/
theorem C1_teardown_order (w : Bool) (s : RendererState) (h : stateInv s) :
    (cleanup w s).2 = specTeardownTrace w s ∧
      isCleared (cleanup w s).1 = true :=
  ⟨cleanup_trace_eq w s h, cleanup_clears w s h⟩

/-- C1 witness: the teardown-order theorem instantiated on a fully built
renderer state. -/
theorem C1_teardown_order_witness :
    stateInv sampleState ∧
      ((cleanup true sampleState).2 = specTeardownTrace true sampleState ∧
        isCleared (cleanup true sampleState).1 = true) :=
  ⟨by simp [stateInv, sampleState], C1_teardown_order true sampleState (by simp [stateInv, sampleState])⟩

/-- C2: on every renderer state satisfying the reachable-state invariant,
after the first `cleanup` call every handle field is `None`/empty, and a
second `cleanup` call returns the same state and performs no driver action
at all (no double destruction, no error): cleanup is idempotent. -/
theorem C2_cleanup_idempotent (w1 w2 : Bool) (s : RendererState)
    (h : stateInv s) :
    isCleared (cleanup w1 s).1 = true ∧
      cleanup w2 (cleanup w1 s).1 = ((cleanup w1 s).1, []) :=
  ⟨cleanup_clears w1 s h,
   cleanup_of_cleared w2 (cleanup w1 s).1 (cleanup_clears w1 s h)⟩

/-- C2 witness: idempotence instantiated on a fully built renderer
state. -/
theorem C2_cleanup_idempotent_witness :
    stateInv sampleState ∧
      (isCleared (cleanup true sampleState).1 = true ∧
        cleanup false (cleanup true sampleState).1 =
          ((cleanup true sampleState).1, [])) :=
  ⟨by simp [stateInv, sampleState], C2_cleanup_idempotent true false sampleState (by simp [stateInv, sampleState])⟩

/-- C3 counterexample: on a fully built state whose `device_wait_idle`
call fails, `cleanup` still runs the whole destructive sequence but emits
no log event whatsoever — the failure is silently discarded by `.ok()`
(vulkan.rs:69), contradicting the claim that a wait-idle failure is
logged. -/
theorem C3_counterexample :
    (cleanup false sampleState).2 =
      [Event.deviceWaitIdle false, Event.destroyFramebuffer 14,
       Event.destroyFramebuffer 15, Event.destroyRenderPass 13,
       Event.destroyImageView 11, Event.destroyImageView 12,
       Event.destroySwapchain 8, Event.destroyDebugMessenger 2,
       Event.destroySurface 3, Event.destroyDevice 5,
       Event.destroyInstance 1] ∧
    ((cleanup false sampleState).2.all (fun e => !e.isLog)) = true := by
  constructor
  · decide
  · decide

/-- C3 amended: `cleanup` never raises or panics (it is a total function
of the renderer state and the driver's wait-idle result); a failure of
`device_wait_idle` is absorbed locally — silently discarded, not logged
and not propagated — and the remaining destructive sequence still runs to
completion: the final state and the whole trace apart from the recorded
wait result are identical to the all-success run, and no run ever emits a
log event. -/
theorem C3_teardown_absorbs_failures (w : Bool) (s : RendererState) :
    (cleanup w s).1 = (cleanup true s).1 ∧
      ((cleanup w s).2.filter (fun e => !e.isWaitIdle)) =
        ((cleanup true s).2.filter (fun e => !e.isWaitIdle)) ∧
      ((cleanup w s).2.all (fun e => !e.isLog)) = true :=
  ⟨cleanup_state_ignores_waitOk w s, cleanup_trace_ignores_waitOk w s,
   cleanup_no_log w s⟩

/-- C5 counterexample: a surface-capabilities report with
`min_image_count = max_image_count = 2` (permitted by Vulkan) has
`max_image_count > 0`, yet the chosen image count is 2, which is not
strictly greater than `min_image_count` — refuting the claimed bound
`min_image_count < count` for all reports with nonzero maximum. -/
theorem C5_counterexample :
    c5CapsEqual.max_image_count > 0 ∧
      chooseImageCount c5CapsEqual = some 2 ∧
      ¬ (c5CapsEqual.min_image_count < 2) := by
  decide

/-- C5 amended: on the report `min_image_count = 0xFFFFFFFF` the
debug-build u32 addition `min_image_count + 1` panics with an arithmetic
overflow before any count is chosen; on every other u32-representable
report, when `max_image_count = 0` the chosen count is exactly
`min_image_count + 1`, and when `max_image_count > 0` the chosen count is
`min (min_image_count + 1) max_image_count`, so the claimed strict bounds
`min_image_count < count ≤ max_image_count` hold exactly when
`max_image_count > min_image_count`. -/
theorem C5_image_count_clamped (caps : SurfaceCapabilitiesKHR) :
    (caps.min_image_count = 4294967295 → chooseImageCount caps = none) ∧
    (caps.min_image_count < 4294967295 →
      (caps.max_image_count = 0 →
        chooseImageCount caps = some (caps.min_image_count + 1)) ∧
      (0 < caps.max_image_count →
        chooseImageCount caps =
          some (min (caps.min_image_count + 1) caps.max_image_count)) ∧
      (caps.min_image_count < caps.max_image_count →
        ∃ c, chooseImageCount caps = some c ∧
          caps.min_image_count < c ∧ c ≤ caps.max_image_count)) := by
  simp only [chooseImageCount]
  split
  case isTrue hrep =>
    constructor
    · intro h
      exact absurd h (by omega)
    · intro hlt
      split
      case isTrue hc =>
        refine ⟨fun h0 => absurd h0 (by omega), fun hpos => ?_,
          fun hmm => ⟨caps.max_image_count, rfl, by omega, by omega⟩⟩
        simp only [Option.some.injEq]
        omega
      case isFalse hc =>
        refine ⟨fun h0 => rfl, fun hpos => ?_,
          fun hmm => ⟨caps.min_image_count + 1, rfl, by omega, by omega⟩⟩
        simp only [Option.some.injEq]
        omega
  case isFalse hrep =>
    exact ⟨fun _ => rfl, fun h => absurd hrep (by omega)⟩

/-- C5 witness: the amended image-count theorem instantiated on the
overflowing report (min = 0xFFFFFFFF) and on a report with min 2 and
max 4, discharging the hypotheses at both. -/
theorem C5_image_count_clamped_witness :
    (c5CapsOverflow.min_image_count = 4294967295 ∧
      chooseImageCount c5CapsOverflow = none) ∧
    (c5CapsRoom.min_image_count < 4294967295 ∧
      0 < c5CapsRoom.max_image_count ∧
      chooseImageCount c5CapsRoom =
        some (min (c5CapsRoom.min_image_count + 1)
          c5CapsRoom.max_image_count)) ∧
    (c5CapsRoom.min_image_count < c5CapsRoom.max_image_count ∧
      ∃ c, chooseImageCount c5CapsRoom = some c ∧
        c5CapsRoom.min_image_count < c ∧ c ≤ c5CapsRoom.max_image_count) :=
  ⟨⟨by decide, (C5_image_count_clamped c5CapsOverflow).1 (by decide)⟩,
   ⟨by decide, by decide,
    ((C5_image_count_clamped c5CapsRoom).2 (by decide)).2.1 (by decide)⟩,
   ⟨by decide,
    ((C5_image_count_clamped c5CapsRoom).2 (by decide)).2.2 (by decide)⟩⟩

/-- C6: extent selection returns exactly 800x600 when the reported current
width is the 32-bit sentinel 0xFFFFFFFF, returns the reported current
extent unmodified otherwise, and is entirely independent of the min/max
image-extent bounds (no clamping). -/
theorem C6_extent_selection (caps : SurfaceCapabilitiesKHR) :
    (caps.current_extent.width = 4294967295 →
      selectSwapExtent caps = { width := 800, height := 600 }) ∧
    (caps.current_extent.width ≠ 4294967295 →
      selectSwapExtent caps = caps.current_extent) ∧
    (∀ lo hi : Extent2D,
      selectSwapExtent
          { caps with min_image_extent := lo, max_image_extent := hi } =
        selectSwapExtent caps) := by
  refine ⟨fun h => by simp [selectSwapExtent, h],
          fun h => by simp [selectSwapExtent, h],
          fun lo hi => by simp [selectSwapExtent]⟩

/-- C6 witness: extent selection evaluated on a sentinel report and on a
fixed report whose extent lies outside the advertised bounds. -/
theorem C6_extent_selection_witness :
    selectSwapExtent c6CapsSentinel = { width := 800, height := 600 } ∧
      selectSwapExtent c6CapsFixed = c6CapsFixed.current_extent :=
  ⟨(C6_extent_selection c6CapsSentinel).1 (by decide),
   (C6_extent_selection c6CapsFixed).2.1 (by decide)⟩

/-- C7 counterexample: a format list that contains the preferred
(BGRA8, sRGB non-linear) entry in second position, preceded by a BGRA8
entry with a different color space.  Selection returns the first entry —
not the preferred one — because the code's predicate tests the format
field only (vulkan.rs:155); this also refutes the fallback half of the
claim, since a list without the preferred pair but with a later BGRA8
entry would likewise not yield the first element. -/
theorem C7_counterexample :
    preferredSurfaceFormat ∈ c7FormatList ∧
      selectSurfaceFormat c7FormatList =
        some { format := VkFormat.B8G8R8A8_SRGB
               color_space := VkColorSpace.other 0 } ∧
      selectSurfaceFormat c7FormatList ≠ some preferredSurfaceFormat := by
  decide

/-- C7 amended: for every non-empty format list, selection returns the
first entry whose format field is `B8G8R8A8_SRGB`, regardless of that
entry's color space; when no entry has that format, the first list entry
is chosen. -/
theorem C7_format_selected_by_format_only (fs : List SurfaceFormatKHR)
    (h : fs ≠ []) :
    (∃ pre c post, fs = pre ++ c :: post ∧
        c.format = VkFormat.B8G8R8A8_SRGB ∧
        (∀ f ∈ pre, f.format ≠ VkFormat.B8G8R8A8_SRGB) ∧
        selectSurfaceFormat fs = some c) ∨
    ((∀ f ∈ fs, f.format ≠ VkFormat.B8G8R8A8_SRGB) ∧
        selectSurfaceFormat fs = fs.head?) := by
  match fs, h with
  | f0 :: rest, _ =>
    cases hf : (f0 :: rest).find?
        (fun f => decide (f.format = VkFormat.B8G8R8A8_SRGB)) with
    | none =>
      right
      refine ⟨fun f hfm => by simpa using List.find?_eq_none.mp hf f hfm, ?_⟩
      simp [selectSurfaceFormat, hf]
    | some c =>
      left
      obtain ⟨hc, pre, post, hsplit, hpre⟩ := List.find?_eq_some.mp hf
      refine ⟨pre, c, post, hsplit, by simpa using hc, ?_, ?_⟩
      · intro f hfm
        have := hpre f hfm
        simpa using this
      · simp [selectSurfaceFormat, hf]

/-- C7 amended witness: the amended format-selection theorem instantiated
on the singleton list holding the preferred entry. -/
theorem C7_format_selected_by_format_only_witness :
    (∃ pre c post, [preferredSurfaceFormat] = pre ++ c :: post ∧
        c.format = VkFormat.B8G8R8A8_SRGB ∧
        (∀ f ∈ pre, f.format ≠ VkFormat.B8G8R8A8_SRGB) ∧
        selectSurfaceFormat [preferredSurfaceFormat] = some c) ∨
    ((∀ f ∈ [preferredSurfaceFormat],
        f.format ≠ VkFormat.B8G8R8A8_SRGB) ∧
        selectSurfaceFormat [preferredSurfaceFormat] =
          [preferredSurfaceFormat].head?) :=
  C7_format_selected_by_format_only [preferredSurfaceFormat] (by decide)

/-- C10: the swapchain format fallback indexes element 0 of the reported
format list, so `selectSurfaceFormat` panics (modelled as `none`) exactly
when the driver reports an empty list; on any non-empty list it is
panic-free.  No error value is ever returned — `create_swapchain` is
infallible-or-panic. -/
theorem C10_empty_format_list_panics (fs : List SurfaceFormatKHR) :
    selectSurfaceFormat fs = none ↔ fs = [] := by
  cases fs <;> simp [selectSurfaceFormat]

/-- C10 witness: the empty list panics, a singleton list does not. -/
theorem C10_empty_format_list_panics_witness :
    selectSurfaceFormat ([] : List SurfaceFormatKHR) = none ∧
      selectSurfaceFormat [preferredSurfaceFormat] ≠ none :=
  ⟨(C10_empty_format_list_panics []).mpr rfl,
   fun h => by
     simpa using (C10_empty_format_list_panics [preferredSurfaceFormat]).mp h⟩

/-- C9: the queue-creation request list has exactly one request per unique
family — a single request when graphics and present indices coincide, two
when they differ — with no duplicated family index, and every request
carries the single priority 1.0. -/
theorem C9_unique_queue_requests (g p : Nat) :
    queueCreateInfos g p =
      (if g = p then
        [{ queue_family_index := g, queue_priorities := [1] }]
       else
        [{ queue_family_index := g, queue_priorities := [1] },
         { queue_family_index := p, queue_priorities := [1] }]) ∧
    ((queueCreateInfos g p).map
        (fun i => i.queue_family_index)).Nodup ∧
    (∀ info ∈ queueCreateInfos g p, info.queue_priorities = [1]) := by
  by_cases hgp : g = p <;>
    simp [queueCreateInfos, uniqueQueueFamilies, hgp]

lemma scanQueueFamilies_ok :
    ∀ (fams : List QueueFamilyInfo) (i : Nat) (g0 p0 : Option Nat),
      (∀ f ∈ fams, ∃ b, f.present_support = Except.ok b) →
      ∃ g p, scanQueueFamilies fams i g0 p0 = .ok (g, p) ∧
        g.isSome = (g0.isSome || fams.any (fun f => f.graphics)) ∧
        p.isSome = (p0.isSome || fams.any familySupportsPresent)
  | [], _, g0, p0, _ => ⟨g0, p0, rfl, by simp, by simp⟩
  | f :: t, i, g0, p0, h => by
      obtain ⟨b, hb⟩ := h f (by simp)
      obtain ⟨g, p, hs, hg, hp⟩ :=
        scanQueueFamilies_ok t (i + 1) (if f.graphics then some i else g0)
          (if b then some i else p0) (fun x hx => h x (by simp [hx]))
      refine ⟨g, p, ?_, ?_, ?_⟩
      · simpa [scanQueueFamilies, hb] using hs
      · rw [hg]; cases hfg : f.graphics <;> cases g0 <;> simp [hfg]
      · rw [hp]; cases b <;> cases p0 <;>
          simp [familySupportsPresent, hb]

lemma pickPhysicalDevice_eq_find (devs : List PhysicalDeviceInfo)
    (h : ∀ d ∈ devs, allQueriesOk d) :
    ∃ r, pickPhysicalDevice devs = .ok r ∧
      r.map (fun t => t.1) =
        devs.find? (fun d => hasGraphicsFamily d && hasPresentFamily d) := by
  induction devs with
  | nil => exact ⟨none, rfl, rfl⟩
  | cons d t ih =>
    obtain ⟨g, p, hs, hg, hp⟩ :=
      scanQueueFamilies_ok d.families 0 none none (h d (by simp))
    obtain ⟨r, hr, hmap⟩ := ih (fun x hx => h x (by simp [hx]))
    simp only [Option.isSome_none, Bool.false_or] at hg hp
    have hg' : g.isSome = hasGraphicsFamily d := hg
    have hp' : p.isSome = hasPresentFamily d := hp
    cases hga : hasGraphicsFamily d with
    | true =>
      cases hpa : hasPresentFamily d with
      | true =>
        rw [hga] at hg'
        rw [hpa] at hp'
        obtain ⟨gv, rfl⟩ : ∃ gv, g = some gv := by
          cases g with
          | none => simp at hg'
          | some gv => exact ⟨gv, rfl⟩
        obtain ⟨pv, rfl⟩ : ∃ pv, p = some pv := by
          cases p with
          | none => simp at hp'
          | some pv => exact ⟨pv, rfl⟩
        refine ⟨some (d, gv, pv), ?_, ?_⟩
        · simp [pickPhysicalDevice, hs]
        · rw [List.find?_cons_of_pos _ (by simp [hga, hpa])]
          simp
      | false =>
        have hpnone : p = none := by
          cases p with
          | none => rfl
          | some pv => rw [hpa] at hp'; simp at hp'
        subst hpnone
        refine ⟨r, ?_, ?_⟩
        · cases g <;> simp [pickPhysicalDevice, hs, hr]
        · rw [List.find?_cons_of_neg _ (by simp [hga, hpa]), hmap]
    | false =>
      have hgnone : g = none := by
        cases g with
        | none => rfl
        | some gv => rw [hga] at hg'; simp at hg'
      subst hgnone
      refine ⟨r, ?_, ?_⟩
      · cases p <;> simp [pickPhysicalDevice, hs, hr]
      · rw [List.find?_cons_of_neg _ (by simp [hga]), hmap]

/-- C8: when every present-support query succeeds, device selection
returns without panic, and the device it selects is exactly the first
device in enumeration order having both a graphics-capable family and a
present-capable family (`List.find?` over the enumerated list) — no
scoring or ranking of any kind. -/
theorem C8_first_eligible_device (devs : List PhysicalDeviceInfo)
    (h : ∀ d ∈ devs, allQueriesOk d) :
    ∃ r, pickPhysicalDevice devs = .ok r ∧
      r.map (fun t => t.1) =
        devs.find? (fun d => hasGraphicsFamily d && hasPresentFamily d) :=
  pickPhysicalDevice_eq_find devs h

/-- C8 witness: the spec's example — devices A (no present support),
B (graphics+present), C (graphics+present) — must select B. -/
theorem C8_first_eligible_device_witness :
    (∀ d ∈ [devA, devB, devC], allQueriesOk d) ∧
    [devA, devB, devC].find?
        (fun d => hasGraphicsFamily d && hasPresentFamily d) = some devB ∧
    (∃ r, pickPhysicalDevice [devA, devB, devC] = .ok r ∧
      r.map (fun t => t.1) =
        [devA, devB, devC].find?
          (fun d => hasGraphicsFamily d && hasPresentFamily d)) :=
  ⟨by decide, by decide,
   C8_first_eligible_device [devA, devB, devC] (by decide)⟩

lemma initRenderer_eq_firstFailure (o : InitOracle) :
    initRenderer o = firstFailure o fullStepOrder := by
  simp only [initRenderer]
  cases h1 : o.loadLibrary with
  | error m => simp [firstFailure, fullStepOrder, stepFailure, h1]
  | ok u1 =>
  cases h2 : o.entryNew with
  | error m => simp [firstFailure, fullStepOrder, stepFailure, h1, h2]
  | ok u2 =>
  cases h3 : o.layerProperties with
  | error c => simp [firstFailure, fullStepOrder, stepFailure, h1, h2, h3]
  | ok layers =>
  cases h4 : o.instanceVersion with
  | error c => simp [firstFailure, fullStepOrder, stepFailure, h1, h2, h3, h4]
  | ok ver =>
  cases h5 : o.createInstance with
  | error c =>
      simp [firstFailure, fullStepOrder, stepFailure, h1, h2, h3, h4, h5]
  | ok inst =>
  cases h6 : o.createDebugUtilsMessenger with
  | error c =>
      simp [firstFailure, fullStepOrder, stepFailure, h1, h2, h3, h4, h5, h6]
  | ok dbg =>
  cases h7 : o.windowHandle with
  | error c =>
      simp [firstFailure, fullStepOrder, stepFailure, h1, h2, h3, h4, h5, h6,
        h7]
  | ok u7 =>
  cases h8 : o.displayHandle with
  | error c =>
      simp [firstFailure, fullStepOrder, stepFailure, h1, h2, h3, h4, h5, h6,
        h7, h8]
  | ok u8 =>
  cases h9 : o.createSurface with
  | error c =>
      simp [firstFailure, fullStepOrder, stepFailure, h1, h2, h3, h4, h5, h6,
        h7, h8, h9]
  | ok srf =>
  cases h10 : o.physicalDevices with
  | error c =>
      simp [firstFailure, fullStepOrder, stepFailure, h1, h2, h3, h4, h5, h6,
        h7, h8, h9, h10]
  | ok devices =>
  cases h11 : pickPhysicalDevice devices with
  | error c =>
      simp [firstFailure, fullStepOrder, stepFailure, h1, h2, h3, h4, h5, h6,
        h7, h8, h9, h10, h11]
  | ok sel =>
  cases sel with
  | none =>
      simp [firstFailure, fullStepOrder, stepFailure, h1, h2, h3, h4, h5, h6,
        h7, h8, h9, h10, h11]
  | some trip =>
  obtain ⟨pd, gf, pf⟩ := trip
  cases h12 : o.deviceExtensions with
  | error c =>
      simp [firstFailure, fullStepOrder, stepFailure, h1, h2, h3, h4, h5, h6,
        h7, h8, h9, h10, h11, h12]
  | ok exts =>
  cases h13 : o.createDevice with
  | error c =>
      simp [firstFailure, fullStepOrder, stepFailure, h1, h2, h3, h4, h5, h6,
        h7, h8, h9, h10, h11, h12, h13]
  | ok dev =>
  cases h14 : o.surfaceCapabilities with
  | error c =>
      simp [firstFailure, fullStepOrder, stepFailure, h1, h2, h3, h4, h5, h6,
        h7, h8, h9, h10, h11, h12, h13, h14]
  | ok caps =>
  cases h15 : o.surfaceFormats with
  | error c =>
      simp [firstFailure, fullStepOrder, stepFailure, h1, h2, h3, h4, h5, h6,
        h7, h8, h9, h10, h11, h12, h13, h14, h15]
  | ok fmts =>
  cases h16 : selectSurfaceFormat fmts with
  | none =>
      simp [firstFailure, fullStepOrder, stepFailure, h1, h2, h3, h4, h5, h6,
        h7, h8, h9, h10, h11, h12, h13, h14, h15, h16]
  | some fmt =>
  cases h17 : o.presentModes with
  | error c =>
      simp [firstFailure, fullStepOrder, stepFailure, h1, h2, h3, h4, h5, h6,
        h7, h8, h9, h10, h11, h12, h13, h14, h15, h16, h17]
  | ok modes =>
  cases h18 : o.createSwapchain with
  | error c =>
      simp [firstFailure, fullStepOrder, stepFailure, h1, h2, h3, h4, h5, h6,
        h7, h8, h9, h10, h11, h12, h13, h14, h15, h16, h17, h18]
  | ok sc =>
  cases h19 : o.swapchainImages with
  | error c =>
      simp [firstFailure, fullStepOrder, stepFailure, h1, h2, h3, h4, h5, h6,
        h7, h8, h9, h10, h11, h12, h13, h14, h15, h16, h17, h18, h19]
  | ok images =>
  cases h20 : createImageViewsLoop o images with
  | error c =>
      simp [firstFailure, fullStepOrder, stepFailure, h1, h2, h3, h4, h5, h6,
        h7, h8, h9, h10, h11, h12, h13, h14, h15, h16, h17, h18, h19, h20]
  | ok views =>
  cases h21 : o.createRenderPass with
  | error c =>
      simp [firstFailure, fullStepOrder, stepFailure, h1, h2, h3, h4, h5, h6,
        h7, h8, h9, h10, h11, h12, h13, h14, h15, h16, h17, h18, h19, h20,
        h21]
  | ok rp =>
  cases h22 : createFramebuffersLoop o views with
  | error c =>
      simp [firstFailure, fullStepOrder, stepFailure, h1, h2, h3, h4, h5, h6,
        h7, h8, h9, h10, h11, h12, h13, h14, h15, h16, h17, h18, h19, h20,
        h21, h22]
  | ok fbs =>
      simp [firstFailure, fullStepOrder, stepFailure, h1, h2, h3, h4, h5, h6,
        h7, h8, h9, h10, h11, h12, h13, h14, h15, h16, h17, h18, h19, h20,
        h21, h22]

lemma firstFailure_trace_isPre (o : InitOracle) :
    ∀ l : List Step, ∃ t, (firstFailure o l).2 ++ t = l
  | [] => ⟨[], rfl⟩
  | s :: rest => by
      unfold firstFailure
      cases hs : stepFailure o s with
      | some out => exact ⟨rest, rfl⟩
      | none =>
          obtain ⟨t, ht⟩ := firstFailure_trace_isPre o rest
          exact ⟨t, by simpa using ht⟩

lemma stepFailure_ne_ok (o : InitOracle) (s : Step) :
    stepFailure o s ≠ some InitOutcome.ok := by
  cases s <;> simp only [stepFailure] <;> (repeat' split) <;> simp

lemma stepFailure_err_shape (o : InitOracle) (s : Step) (e : AppError)
    (hse : stepFailure o s = some (InitOutcome.err e)) :
    (∃ m, e = AppError.Lib m) ∨ ∃ m, e = AppError.Loader m := by
  cases s <;> simp only [stepFailure] at hse <;> (repeat' split at hse) <;>
    (try simp_all) <;>
    first
      | exact Or.inl ⟨_, hse.symm⟩
      | exact Or.inr ⟨_, hse.symm⟩

lemma firstFailure_ok_trace (o : InitOracle) :
    ∀ l : List Step, (firstFailure o l).1 = InitOutcome.ok →
      (firstFailure o l).2 = l
  | [] => fun _ => rfl
  | s :: rest => by
      intro hok
      unfold firstFailure at hok ⊢
      cases hs : stepFailure o s with
      | some out =>
          rw [hs] at hok
          dsimp only at hok
          exact absurd (hok ▸ hs) (stepFailure_ne_ok o s)
      | none =>
          rw [hs] at hok
          dsimp only at hok ⊢
          simp [firstFailure_ok_trace o rest hok]

lemma firstFailure_err_step (o : InitOracle) :
    ∀ (l : List Step) (e : AppError),
      (firstFailure o l).1 = InitOutcome.err e →
      ∃ s ∈ l, stepFailure o s = some (InitOutcome.err e)
  | [], e => by intro h; simp [firstFailure] at h
  | s :: rest, e => by
      intro h
      unfold firstFailure at h
      cases hs : stepFailure o s with
      | some out =>
          rw [hs] at h
          dsimp only at h
          exact ⟨s, by simp, by rw [hs, h]⟩
      | none =>
          rw [hs] at h
          dsimp only at h
          obtain ⟨s2, hmem, hs2⟩ := firstFailure_err_step o rest e h
          exact ⟨s2, by simp [hmem], hs2⟩

/-- C4 amended: initialization is fail-fast with no retries — it refines
the first-failure reference semantics over the fixed step order, so the
first failing step ends the run and the attempted steps are always a
prefix of the full order (all of it exactly when the run returns `Ok`).
However, only the two library-loading steps surface a typed error
(`AppError::Lib` / `AppError::Loader`) to the caller; a failure in any
later step — instance creation, surface creation, device selection,
logical-device creation, swapchain, image views, render pass,
framebuffers — panics instead of returning a typed error, and the claimed
taxonomy variants do not exist (the error type is
`AppError{Lib, Vk, Winit, Loader}`). -/
theorem C4_fail_fast (o : InitOracle) :
    initRenderer o = firstFailure o fullStepOrder ∧
      (∃ t, (initRenderer o).2 ++ t = fullStepOrder) ∧
      (∀ e : AppError, (initRenderer o).1 = InitOutcome.err e →
        (∃ m, e = AppError.Lib m) ∨ ∃ m, e = AppError.Loader m) ∧
      ((initRenderer o).1 = InitOutcome.ok →
        (initRenderer o).2 = fullStepOrder) := by
  have heq := initRenderer_eq_firstFailure o
  refine ⟨heq, ?_, ?_, ?_⟩
  · rw [heq]; exact firstFailure_trace_isPre o fullStepOrder
  · intro e he
    rw [heq] at he
    obtain ⟨s, _, hs⟩ := firstFailure_err_step o fullStepOrder e he
    exact stepFailure_err_shape o s e hs
  · intro hok
    rw [heq] at hok ⊢
    exact firstFailure_ok_trace o fullStepOrder hok

/-- C4 counterexample: under an oracle where every call succeeds except
that `vkCreateInstance` fails, initialization does not return a typed
error value — it panics with the `vkCreateInstance failed` expect message
(vulkan.rs:410), after attempting exactly the first five steps. -/
theorem C4_counterexample :
    (initRenderer c4Oracle).1 =
        InitOutcome.panicked PanicMsg.vkCreateInstanceFailed ∧
      (initRenderer c4Oracle).1.isErr = false ∧
      (initRenderer c4Oracle).2 = fullStepOrder.take 5 := by
  refine ⟨rfl, rfl, rfl⟩

/-- C4 witness: the fail-fast theorem instantiated on the all-success
oracle, discharging the hypothesis of its final conjunct. -/
theorem C4_fail_fast_witness :
    initRenderer okOracle = firstFailure okOracle fullStepOrder ∧
      (initRenderer okOracle).2 = fullStepOrder :=
  ⟨(C4_fail_fast okOracle).1,
   (C4_fail_fast okOracle).2.2.2 (by decide)⟩

/-- C9 witness: the queue-request theorem evaluated at coinciding and
distinct family indices. -/
theorem C9_unique_queue_requests_witness :
    queueCreateInfos 0 0 =
      [{ queue_family_index := 0, queue_priorities := [1] }] ∧
    queueCreateInfos 0 1 =
      [{ queue_family_index := 0, queue_priorities := [1] },
       { queue_family_index := 1, queue_priorities := [1] }] :=
  ⟨by simpa using (C9_unique_queue_requests 0 0).1,
   by simpa using (C9_unique_queue_requests 0 1).1⟩

end WolfEngine
